import Mathlib

/-!
Shallow embedding of the S3-to-OneDrive Lambda (src/index.js).

External I/O is made explicit: every HTTP call and file-system step taken
by the code is represented by a value supplied in an environment record,
and the functions additionally return the list of side effects they
perform, in order, so that sequencing claims ("download before resolve
before upload", "no upload after a resolution failure") can be stated.

JavaScript conventions mirrored here:
- a promise rejection / thrown Error carries a message string, so fallible
  steps are `Except String`;
- `response.data.access_token` on a body without that field is undefined,
  modelled as `Option String` with `none` for undefined;
- the truthiness test `item.folder` is modelled by the Boolean field
  `isFolder`, and the truthiness test on the upload response data
  (a string body) is `data ≠ ""`.
-/

deriving instance DecidableEq for Except

namespace S3ToOneDrive

/-- Result of an awaited axios call: either the promise rejected (transport
failure, carrying the error message) or it resolved with a status and body. -/
inductive HttpResult (α : Type) where
  | transportError (message : String) : HttpResult α
  | response (status : Nat) (data : α) : HttpResult α
deriving DecidableEq

/-- Body of the token endpoint response; `access_token` is `none` when the
field is absent (JavaScript undefined). -/
structure TokenBody where
  access_token : Option String
deriving DecidableEq

/-- parentReference of a shared item's remoteItem (src/index.js line 75). -/
structure ParentReference where
  driveId : String
deriving DecidableEq

/-- remoteItem of an entry of the sharedWithMe listing (lines 75-76). -/
structure RemoteItem where
  parentReference : ParentReference
  id : String
deriving DecidableEq

/-- One entry of the sharedWithMe listing (lines 65-67): `isFolder` is the
truthiness of the `folder` facet. -/
structure SharedItem where
  name : String
  isFolder : Bool
  remoteItem : RemoteItem
deriving DecidableEq

/-- Value returned by resolveSharedFolder (lines 74-77). -/
structure FolderRef where
  driveId : String
  itemId : String
deriving DecidableEq

/-- One observable side effect of an invocation, in program order.
`deleteFile` is included so that "no cleanup happens" is statable; the
source never emits it (there is no fs.unlink / fs.rm anywhere). -/
inductive Effect where
  | tokenFetch : Effect
  | s3Download (bucket fileKey downloadPath : String) : Effect
  | listShared (bearer : Option String) : Effect
  | readLocalFile (filePath : String) : Effect
  | upload (bearer : Option String) (driveId folderItemId fileName : String) : Effect
  | deleteFile (filePath : String) : Effect
deriving DecidableEq

/-- Core of getOneDriveAccessToken (lines 23-47): on a resolved response,
status 200 yields `response.data.access_token` (which is undefined when
the field is missing — no check is made); any other status throws
"Failed to fetch OneDrive access token."; a rejection is rethrown as is. -/
def tokenResult (r : HttpResult TokenBody) : Except String (Option String) :=
  match r with
  | HttpResult.transportError m => Except.error m
  | HttpResult.response s body =>
    if s = 200 then Except.ok body.access_token
    else Except.error "Failed to fetch OneDrive access token."

/-- getOneDriveAccessToken (lines 19-48), with its one effect: the POST to
the token endpoint. -/
def getOneDriveAccessToken (r : HttpResult TokenBody) :
    Except String (Option String) × List Effect :=
  (tokenResult r, [Effect.tokenFetch])

/-- The not-found message thrown at line 70. -/
def notFoundMsg (folderName : String) : String :=
  "Shared folder \"" ++ folderName ++ "\" not found."

/-- The predicate of the `find` at lines 65-67. -/
def matchesFolder (folderName : String) (item : SharedItem) : Bool :=
  item.name == folderName && item.isFolder

/-- resolveSharedFolder (lines 51-82): fetch a token, GET sharedWithMe with
it, linearly scan for the first name-equal folder entry, and project the
drive id and item id out of its remoteItem; throw the not-found message
when no entry matches.  `sharedResp` is the awaited GET: the code never
inspects its status, so it is `Except` (resolution or rejection). -/
def resolveSharedFolder (folderName : String) (tokenResp : HttpResult TokenBody)
    (sharedResp : Except String (List SharedItem)) :
    Except String FolderRef × List Effect :=
  let g := getOneDriveAccessToken tokenResp
  match g.1 with
  | Except.error m => (Except.error m, g.2)
  | Except.ok accessToken =>
    match sharedResp with
    | Except.error m => (Except.error m, g.2 ++ [Effect.listShared accessToken])
    | Except.ok items =>
      match items.find? (matchesFolder folderName) with
      | none => (Except.error (notFoundMsg folderName),
                 g.2 ++ [Effect.listShared accessToken])
      | some sharedFolder =>
        (Except.ok { driveId := sharedFolder.remoteItem.parentReference.driveId,
                     itemId := sharedFolder.remoteItem.id },
         g.2 ++ [Effect.listShared accessToken])

/-- uploadFileToSharedFolder (lines 85-115): fetch a token, read the local
file, PUT its bytes to drives/{driveId}/items/{folderItemId}:/{fileName}:/content;
status 201 or 200 returns `response.data`, any other status throws
"Failed to upload file to shared folder."; rejections are rethrown. -/
def uploadFileToSharedFolder (driveId folderItemId filePath fileName : String)
    (tokenResp : HttpResult TokenBody) (readFileResult : Except String Unit)
    (uploadResp : HttpResult String) :
    Except String String × List Effect :=
  let g := getOneDriveAccessToken tokenResp
  match g.1 with
  | Except.error m => (Except.error m, g.2)
  | Except.ok accessToken =>
    match readFileResult with
    | Except.error m => (Except.error m, g.2 ++ [Effect.readLocalFile filePath])
    | Except.ok _ =>
      let tr2 := g.2 ++ [Effect.readLocalFile filePath,
                         Effect.upload accessToken driveId folderItemId fileName]
      match uploadResp with
      | HttpResult.transportError m => (Except.error m, tr2)
      | HttpResult.response s data =>
        if s = 201 ∨ s = 200 then (Except.ok data, tr2)
        else (Except.error "Failed to upload file to shared folder.", tr2)

/-! ## downloadFileFromS3 promise settlement (lines 118-147)

The executor attaches three listeners: read-stream error → reject,
write-stream finish → fs.stat then resolve (or reject if the stat fails),
write-stream error → reject.  No listener is attached to the read stream's
end event.  A JS promise settles at the first resolve/reject call; later
calls are no-ops.  We model the listener firings as an event list. -/

/-- A listener-firing on the two streams; `readEnd` is the read stream
ending, for which the executor installs no handler; `writeFinish` carries
the result of the fs.stat performed inside the finish handler. -/
inductive StreamEvent where
  | readEnd : StreamEvent
  | readError (message : String) : StreamEvent
  | writeFinish (stat : Except String Nat) : StreamEvent
  | writeError (message : String) : StreamEvent
deriving DecidableEq

/-- How the downloadFileFromS3 promise settles. -/
inductive Settlement where
  | resolved : Settlement
  | rejected (message : String) : Settlement
deriving DecidableEq

/-- The settlement (if any) a single listener firing would cause. -/
def settleStep (e : StreamEvent) : Option Settlement :=
  match e with
  | StreamEvent.readEnd => none
  | StreamEvent.readError m => some (Settlement.rejected m)
  | StreamEvent.writeError m => some (Settlement.rejected m)
  | StreamEvent.writeFinish (Except.ok _) => some Settlement.resolved
  | StreamEvent.writeFinish (Except.error m) => some (Settlement.rejected m)

/-- Settlement of the downloadFileFromS3 promise over a firing sequence:
the first settling call wins, later ones are no-ops (JS promise semantics). -/
def downloadSettle (events : List StreamEvent) : Option Settlement :=
  match events with
  | [] => none
  | e :: rest =>
    match settleStep e with
    | some s => some s
    | none => downloadSettle rest

/-! ## JSON.stringify of the handler's response bodies -/

/-- Lower-case hex digit (for the control-character escapes). -/
def hexDigit (n : Nat) : Char :=
  if n < 10 then Char.ofNat (48 + n) else Char.ofNat (87 + n)

/-- JSON.stringify escaping of one character of a string value. -/
def jsonEscapeChar (c : Char) : List Char :=
  if c = '"' then ['\\', '"']
  else if c = '\\' then ['\\', '\\']
  else if c = Char.ofNat 8 then ['\\', 'b']
  else if c = Char.ofNat 9 then ['\\', 't']
  else if c = Char.ofNat 10 then ['\\', 'n']
  else if c = Char.ofNat 12 then ['\\', 'f']
  else if c = Char.ofNat 13 then ['\\', 'r']
  else if c.toNat < 32 then
    ['\\', 'u', '0', '0', hexDigit (c.toNat / 16), hexDigit (c.toNat % 16)]
  else [c]

/-- JSON.stringify escaping of a whole string value. -/
def jsonEscape (s : String) : String :=
  String.mk (s.data.flatMap jsonEscapeChar)

/-- A JSON string literal. -/
def jsonString (s : String) : String :=
  "\"" ++ jsonEscape s ++ "\""

/-- The template-literal success message of line 192. -/
def successMessage (name : String) : String :=
  "File uploaded successfully to shared folder \"" ++ name ++ "\""

/-- JSON.stringify of the success body (line 192). -/
def successBody (name : String) : String :=
  "\x7b\"message\":" ++ jsonString (successMessage name) ++ "\x7d"

/-- JSON.stringify of the failure body (line 198): note the message is the
fixed text "Failed to process shared folder". -/
def failureBody (errMsg : String) : String :=
  "\x7b\"message\":" ++ jsonString "Failed to process shared folder" ++
    ",\"error\":" ++ jsonString errMsg ++ "\x7d"

/-! ## decodeURIComponent and path helpers -/

/-- Value of a hex digit character, if it is one. -/
def hexVal (c : Char) : Option Nat :=
  if 48 ≤ c.toNat ∧ c.toNat ≤ 57 then some (c.toNat - 48)
  else if 65 ≤ c.toNat ∧ c.toNat ≤ 70 then some (c.toNat - 55)
  else if 97 ≤ c.toNat ∧ c.toNat ≤ 102 then some (c.toNat - 87)
  else none

/-- Percent-decoding of a character list: each % followed by two hex digits
becomes the denoted byte, a % not so followed is malformed.  (JS further
recombines multi-byte UTF-8 escape runs into single code points and rejects
invalid ones; the claims here only exercise single-byte, ASCII escapes, on
which this model and decodeURIComponent agree.) -/
def percentDecodeChars : List Char → Option (List Char)
  | [] => some []
  | '%' :: a :: b :: rest =>
    match hexVal a, hexVal b with
    | some hi, some lo =>
      (percentDecodeChars rest).map (fun t => Char.ofNat (16 * hi + lo) :: t)
    | _, _ => none
  | '%' :: _ => none
  | c :: rest => (percentDecodeChars rest).map (fun t => c :: t)

/-- decodeURIComponent (line 156): throws a URIError "URI malformed" on a
malformed escape. -/
def decodeURIComponent (s : String) : Except String String :=
  match percentDecodeChars s.data with
  | none => Except.error "URI malformed"
  | some cs => Except.ok (String.mk cs)

/-- The part of a path after its last slash (posix basename, keeping any
trailing-dot structure). -/
def afterLastSlash (cs : List Char) : List Char :=
  cs.foldl (fun acc c => if c = '/' then [] else acc ++ [c]) []

/-- path.extname (line 160): the suffix of the basename from its last dot;
empty when there is no dot, when the only dot leads the basename (dotfile),
or for the special basename "..". -/
def extname (p : String) : String :=
  let b := afterLastSlash p.data
  if b = ['.', '.'] then "" else
  let tl := (b.reverse.takeWhile (fun c => c ≠ '.')).length
  if tl = b.length then ""
  else
    let dotIdx := b.length - 1 - tl
    if dotIdx = 0 then "" else String.mk (b.drop dotIdx)

/-- The generated local destination path (line 162):
path.join of /tmp and download-{timestamp}{extension}. -/
def downloadPathFor (timestamp : Nat) (fileKey : String) : String :=
  "/tmp/download-" ++ toString timestamp ++ extname fileKey

/-! ## The event shape and the handler -/

/-- record.s3.bucket (line 154). -/
structure S3Bucket where
  name : String
deriving DecidableEq

/-- record.s3.object (line 156). -/
structure S3Object where
  key : String
deriving DecidableEq

/-- record.s3. -/
structure S3Info where
  bucket : S3Bucket
  object : S3Object
deriving DecidableEq

/-- One element of event.Records. -/
structure S3Record where
  s3 : S3Info
deriving DecidableEq

/-- The incoming Lambda event (line 153). -/
structure S3Event where
  Records : List S3Record
deriving DecidableEq

/-- The handler's return value: statusCode plus the JSON.stringify-ed body. -/
structure Outcome where
  statusCode : Nat
  body : String
deriving DecidableEq

/-- The environment of one invocation: the configured folder name and the
outcome of each external step the handler may take, in program order. -/
structure Env where
  /-- process.env.ONEDRIVE_SHARED_FOLDER (line 173). -/
  sharedFolderName : String
  /-- settlement of the downloadFileFromS3 promise (line 164). -/
  downloadResult : Except String Unit
  /-- fs.stat of the downloaded file (line 167), giving its size. -/
  statSize : Except String Nat
  /-- token endpoint response for the resolver's fetch (line 53). -/
  tokenResp1 : HttpResult TokenBody
  /-- awaited sharedWithMe GET (lines 57-62). -/
  sharedResp : Except String (List SharedItem)
  /-- token endpoint response for the uploader's fetch (line 87). -/
  tokenResp2 : HttpResult TokenBody
  /-- fs.readFile of the downloaded file (line 90). -/
  readFileResult : Except String Unit
  /-- awaited upload PUT (lines 93-102); data is the response body,
  falsy exactly when it is the empty string. -/
  uploadResp : HttpResult String
deriving DecidableEq

/-- The try block of the handler (lines 152-193): either the configured
folder name (success, line 190) or the thrown error's message.  An empty
Records array makes line 154 throw a TypeError (its exact runtime message
is engine-specific; the text below stands in for it). -/
def handlerTry (env : Env) (event : S3Event) (timestamp : Nat) :
    Except String String × List Effect :=
  match event.Records with
  | [] => (Except.error "Cannot read properties of undefined (reading s3)", [])
  | record :: _ =>
    let bucketName := record.s3.bucket.name
    match decodeURIComponent record.s3.object.key with
    | Except.error m => (Except.error m, [])
    | Except.ok fileKey =>
      let downloadPath := downloadPathFor timestamp fileKey
      let dl := [Effect.s3Download bucketName fileKey downloadPath]
      match env.downloadResult with
      | Except.error m => (Except.error m, dl)
      | Except.ok _ =>
        match env.statSize with
        | Except.error m => (Except.error m, dl)
        | Except.ok size =>
          if size = 0 then (Except.error "Downloaded file is empty.", dl)
          else
            let r := resolveSharedFolder env.sharedFolderName env.tokenResp1
              env.sharedResp
            match r.1 with
            | Except.error m => (Except.error m, dl ++ r.2)
            | Except.ok sharedFolder =>
              let u := uploadFileToSharedFolder sharedFolder.driveId
                sharedFolder.itemId downloadPath fileKey env.tokenResp2
                env.readFileResult env.uploadResp
              match u.1 with
              | Except.error m => (Except.error m, dl ++ r.2 ++ u.2)
              | Except.ok uploadSuccess =>
                if uploadSuccess = "" then
                  (Except.error
                    "Failed to upload file to shared folder on OneDrive.",
                   dl ++ r.2 ++ u.2)
                else (Except.ok env.sharedFolderName, dl ++ r.2 ++ u.2)

/-- The Lambda handler (lines 150-201): the catch wrapper maps the try
block's outcome to the 200 and 500 responses of lines 190-199. -/
def handler (env : Env) (event : S3Event) (timestamp : Nat) :
    Outcome × List Effect :=
  match handlerTry env event timestamp with
  | (Except.ok name, tr) =>
    ({ statusCode := 200, body := successBody name }, tr)
  | (Except.error m, tr) =>
    ({ statusCode := 500, body := failureBody m }, tr)

/-! ## Trace observation helpers -/

/-- Is the effect the sharedWithMe listing request? -/
def isListShared : Effect → Bool
  | Effect.listShared _ => true
  | _ => false

/-- Is the effect an upload PUT? -/
def isUpload : Effect → Bool
  | Effect.upload _ _ _ _ => true
  | _ => false

/-- Is the effect a token fetch? -/
def isTokenFetch : Effect → Bool
  | Effect.tokenFetch => true
  | _ => false

/-- The object keys of the S3 reads in a trace. -/
def s3Keys (tr : List Effect) : List String :=
  tr.filterMap (fun e => match e with
    | Effect.s3Download _ k _ => some k
    | _ => none)

/-- The remote file names of the uploads in a trace. -/
def uploadNames (tr : List Effect) : List String :=
  tr.filterMap (fun e => match e with
    | Effect.upload _ _ _ n => some n
    | _ => none)

/-- Did an except value fail? -/
def exceptIsError : Except String (Option String) → Bool
  | Except.error _ => true
  | Except.ok _ => false

/-! ## Concrete fixtures used to instantiate the theorems -/

/-- The notification record of the end-to-end scenario. -/
def exampleRecord : S3Record :=
  { s3 := { bucket := { name := "my-s3-bucket" },
            object := { key := "example.txt" } } }

/-- The event of the end-to-end scenario. -/
def exampleEvent : S3Event :=
  { Records := [exampleRecord] }

/-- A record whose key carries a percent-encoded space. -/
def percentRecord : S3Record :=
  { s3 := { bucket := { name := "my-s3-bucket" },
            object := { key := "report%20final.txt" } } }

/-- An event built from percentRecord. -/
def percentEvent : S3Event :=
  { Records := [percentRecord] }

/-- A sharedWithMe entry for the folder Reports. -/
def reportsItem : SharedItem :=
  { name := "Reports", isFolder := true,
    remoteItem := { parentReference := { driveId := "d1" }, id := "i1" } }

/-- A non-matching sharedWithMe entry. -/
def otherItem : SharedItem :=
  { name := "Archive", isFolder := true,
    remoteItem := { parentReference := { driveId := "d9" }, id := "i9" } }

/-- An environment in which every external step succeeds. -/
def happyEnv : Env :=
  { sharedFolderName := "Reports"
    downloadResult := Except.ok ()
    statSize := Except.ok 5
    tokenResp1 := HttpResult.response 200 { access_token := some "T1" }
    sharedResp := Except.ok [reportsItem]
    tokenResp2 := HttpResult.response 200 { access_token := some "T2" }
    readFileResult := Except.ok ()
    uploadResp := HttpResult.response 201 "resp" }

/-! ## Generic list helper -/

/-- find? returns the head of the matching suffix when everything before
it fails the predicate. -/
theorem list_find_first {α : Type} (p : α → Bool) (pre rest : List α) (it : α)
    (hpre : ∀ x ∈ pre, p x = false) (hit : p it = true) :
    (pre ++ it :: rest).find? p = some it := by
  induction pre with
  | nil => simp [List.find?, hit]
  | cons a tl ih =>
    have ha := hpre a (by simp)
    simp only [List.cons_append, List.find?, ha]
    exact ih (fun x hx => hpre x (by simp [hx]))

/-! ## Claim theorems -/

/-- C1: with bucket my-s3-bucket and key example.txt, the configured folder
Reports present in the listing, and every step succeeding, the handler
performs the S3 download, then the folder resolution, then the upload, in
that order, and returns statusCode 200 with exactly the JSON body
saying the file was uploaded to shared folder "Reports". -/
theorem handler_success_ordered_outcome
    (env : Env) (timestamp : Nat) (items : List SharedItem) (it : SharedItem)
    (tok1 tok2 : Option String) (n s : Nat) (data : String)
    (hname : env.sharedFolderName = "Reports")
    (hdl : env.downloadResult = Except.ok ())
    (hstat : env.statSize = Except.ok n) (hn : n ≠ 0)
    (ht1 : tokenResult env.tokenResp1 = Except.ok tok1)
    (hsh : env.sharedResp = Except.ok items)
    (hfind : items.find? (matchesFolder "Reports") = some it)
    (ht2 : tokenResult env.tokenResp2 = Except.ok tok2)
    (hrf : env.readFileResult = Except.ok ())
    (hup : env.uploadResp = HttpResult.response s data)
    (hs : s = 201 ∨ s = 200) (hdata : data ≠ "") :
    handler env exampleEvent timestamp =
      ({ statusCode := 200,
         body := "\x7b\"message\":\"File uploaded successfully to shared folder \\\"Reports\\\"\"\x7d" },
       [Effect.s3Download "my-s3-bucket" "example.txt"
          (downloadPathFor timestamp "example.txt"),
        Effect.tokenFetch,
        Effect.listShared tok1,
        Effect.tokenFetch,
        Effect.readLocalFile (downloadPathFor timestamp "example.txt"),
        Effect.upload tok2 it.remoteItem.parentReference.driveId
          it.remoteItem.id "example.txt"]) := by
  have hdec : decodeURIComponent "example.txt" = Except.ok "example.txt" := by
    decide
  have hbody : successBody "Reports" =
      "\x7b\"message\":\"File uploaded successfully to shared folder \\\"Reports\\\"\"\x7d" := by
    decide
  rcases hs with rfl | rfl <;>
    simp [handler, handlerTry, exampleEvent, exampleRecord, hdec, hname, hdl,
          hstat, hn, resolveSharedFolder, getOneDriveAccessToken, ht1, hsh,
          hfind, uploadFileToSharedFolder, ht2, hrf, hup, hdata, hbody]

/-- C1 witness: the success theorem at a fully concrete environment. -/
theorem handler_success_ordered_outcome_witness :
    handler happyEnv exampleEvent 7 =
      ({ statusCode := 200,
         body := "\x7b\"message\":\"File uploaded successfully to shared folder \\\"Reports\\\"\"\x7d" },
       [Effect.s3Download "my-s3-bucket" "example.txt" "/tmp/download-7.txt",
        Effect.tokenFetch,
        Effect.listShared (some "T1"),
        Effect.tokenFetch,
        Effect.readLocalFile "/tmp/download-7.txt",
        Effect.upload (some "T2") "d1" "i1" "example.txt"]) := by
  have hpath : downloadPathFor 7 "example.txt" = "/tmp/download-7.txt" := by
    decide
  have h := handler_success_ordered_outcome happyEnv 7 [reportsItem] reportsItem
    (some "T1") (some "T2") 5 201 "resp" rfl rfl rfl (by decide) (by decide)
    rfl (by decide) (by decide) rfl rfl (Or.inl rfl) (by decide)
  simpa [hpath, reportsItem] using h

/-- Environment where the resolver's token fetch gets a 401 and everything
else would succeed. -/
def auth401Env : Env :=
  { happyEnv with tokenResp1 := HttpResult.response 401 { access_token := none } }

/-- C2 counterexample: when the token endpoint answers 401, the 500 body's
message field is "Failed to process shared folder" — not the
"Error processing file" text the claim states. -/
theorem handler_auth_message_counterexample :
    (handler auth401Env exampleEvent 7).1 =
      { statusCode := 500,
        body := "\x7b\"message\":\"Failed to process shared folder\",\"error\":\"Failed to fetch OneDrive access token.\"\x7d" }
    ∧ (handler auth401Env exampleEvent 7).1.body ≠
      "\x7b\"message\":\"Error processing file\",\"error\":\"Failed to fetch OneDrive access token.\"\x7d" := by
  exact ⟨by decide, by decide⟩

/-- C2 (amended): when the token endpoint returns a non-200 status during
an invocation that reached the resolver, the handler returns statusCode
500 with body message "Failed to process shared folder" and an error field
carrying the authentication error's message, and no deletion of the
downloaded temporary file is ever attempted. -/
theorem handler_auth_failure_outcome
    (env : Env) (event : S3Event) (timestamp : Nat) (record : S3Record)
    (rest : List S3Record) (fileKey : String) (s n : Nat) (b : TokenBody)
    (hrec : event.Records = record :: rest)
    (hdec : decodeURIComponent record.s3.object.key = Except.ok fileKey)
    (hdl : env.downloadResult = Except.ok ())
    (hstat : env.statSize = Except.ok n) (hn : n ≠ 0)
    (ht1 : env.tokenResp1 = HttpResult.response s b) (hs : s ≠ 200) :
    (handler env event timestamp).1 =
      { statusCode := 500,
        body := failureBody "Failed to fetch OneDrive access token." }
    ∧ ∀ p, Effect.deleteFile p ∉ (handler env event timestamp).2 := by
  simp [handler, handlerTry, hrec, hdec, hdl, hstat, hn, resolveSharedFolder,
        getOneDriveAccessToken, tokenResult, ht1, hs]

/-- C2 witness: the amended theorem at the concrete 401 environment. -/
theorem handler_auth_failure_outcome_witness :
    (handler auth401Env exampleEvent 7).1 =
      { statusCode := 500,
        body := failureBody "Failed to fetch OneDrive access token." }
    ∧ Effect.deleteFile "/tmp/download-7.txt" ∉ (handler auth401Env exampleEvent 7).2 := by
  have h := handler_auth_failure_outcome auth401Env exampleEvent 7 exampleRecord
    [] "example.txt" 401 5 { access_token := none } rfl (by decide) rfl rfl
    (by decide) rfl (by decide)
  exact ⟨h.1, h.2 "/tmp/download-7.txt"⟩

/-- C3 counterexample: for the key report%20final.txt (with every remote
step succeeding), the S3 read uses the decoded key and the upload's remote
file name is also the decoded key — not the raw percent-encoded value the
claim states. -/
theorem handler_upload_name_counterexample :
    s3Keys (handler happyEnv percentEvent 7).2 = ["report final.txt"]
    ∧ uploadNames (handler happyEnv percentEvent 7).2 = ["report final.txt"]
    ∧ ("report final.txt" : String) ≠ "report%20final.txt" := by
  exact ⟨by decide, by decide, by decide⟩

/-- Traces distribute over append for the S3-key observation. -/
theorem s3Keys_append (l1 l2 : List Effect) :
    s3Keys (l1 ++ l2) = s3Keys l1 ++ s3Keys l2 := by
  simp [s3Keys]

/-- Traces distribute over append for the upload-name observation. -/
theorem uploadNames_append (l1 l2 : List Effect) :
    uploadNames (l1 ++ l2) = uploadNames l1 ++ uploadNames l2 := by
  simp [uploadNames]

/-- s3Keys on nil. -/
theorem s3Keys_nil : s3Keys [] = [] := rfl

/-- uploadNames on nil. -/
theorem uploadNames_nil : uploadNames [] = [] := rfl

/-- s3Keys on a cons computes pointwise. -/
theorem s3Keys_cons (e : Effect) (l : List Effect) :
    s3Keys (e :: l) = (match e with
      | Effect.s3Download _ k _ => some k
      | _ => none).toList ++ s3Keys l := by
  cases e <;> simp [s3Keys]

/-- uploadNames on a cons computes pointwise. -/
theorem uploadNames_cons (e : Effect) (l : List Effect) :
    uploadNames (e :: l) = (match e with
      | Effect.upload _ _ _ n => some n
      | _ => none).toList ++ uploadNames l := by
  cases e <;> simp [uploadNames]

/-- The resolver's trace contains no S3 read and no upload. -/
theorem resolveSharedFolder_trace (f : String) (t : HttpResult TokenBody)
    (s : Except String (List SharedItem)) :
    s3Keys (resolveSharedFolder f t s).2 = []
    ∧ uploadNames (resolveSharedFolder f t s).2 = [] := by
  unfold resolveSharedFolder getOneDriveAccessToken tokenResult
  cases t
  all_goals repeat' split
  all_goals simp_all [s3Keys, uploadNames]

/-- The uploader's trace contains no S3 read, and every upload in it names
exactly the file name it was given. -/
theorem uploadFileToSharedFolder_trace (d i p fn : String)
    (t : HttpResult TokenBody) (rf : Except String Unit)
    (up : HttpResult String) :
    s3Keys (uploadFileToSharedFolder d i p fn t rf up).2 = []
    ∧ ∀ nm ∈ uploadNames (uploadFileToSharedFolder d i p fn t rf up).2, nm = fn := by
  unfold uploadFileToSharedFolder getOneDriveAccessToken tokenResult
  cases t
  all_goals repeat' split
  all_goals simp_all [s3Keys, uploadNames]

/-- The handler's trace is the try block's trace. -/
theorem handler_trace (env : Env) (event : S3Event) (timestamp : Nat) :
    (handler env event timestamp).2 = (handlerTry env event timestamp).2 := by
  unfold handler
  rcases h : handlerTry env event timestamp with ⟨res, tr⟩
  cases res <;> simp

/-- C3 (amended): for every notification key that decodes, the handler uses
the percent-decoded key both for the S3 object read and as the remote file
name passed to the uploader. -/
theorem handler_uses_decoded_key_everywhere
    (env : Env) (event : S3Event) (timestamp : Nat) (record : S3Record)
    (rest : List S3Record) (fileKey : String)
    (hrec : event.Records = record :: rest)
    (hdec : decodeURIComponent record.s3.object.key = Except.ok fileKey) :
    (∀ k ∈ s3Keys (handler env event timestamp).2, k = fileKey)
    ∧ ∀ nm ∈ uploadNames (handler env event timestamp).2, nm = fileKey := by
  have hr1 : s3Keys (resolveSharedFolder env.sharedFolderName env.tokenResp1
      env.sharedResp).2 = [] := (resolveSharedFolder_trace _ _ _).1
  have hr2 : uploadNames (resolveSharedFolder env.sharedFolderName env.tokenResp1
      env.sharedResp).2 = [] := (resolveSharedFolder_trace _ _ _).2
  have hu1 : ∀ d i, s3Keys (uploadFileToSharedFolder d i
      (downloadPathFor timestamp fileKey) fileKey env.tokenResp2
      env.readFileResult env.uploadResp).2 = [] :=
    fun d i => (uploadFileToSharedFolder_trace _ _ _ _ _ _ _).1
  rw [handler_trace]
  simp only [handlerTry, hrec, hdec]
  repeat' split
  all_goals
    refine ⟨fun k hk => ?_, fun nm hnm => ?_⟩ <;>
      simp_all [s3Keys_append, uploadNames_append, s3Keys_cons, uploadNames_cons,
                s3Keys_nil, uploadNames_nil, hr1, hr2, hu1] <;>
      exact (uploadFileToSharedFolder_trace _ _ _ _ _ _ _).2 _ (by assumption)

/-- C3 witness: the amended theorem at the concrete percent-encoded key. -/
theorem handler_uses_decoded_key_everywhere_witness :
    ("report final.txt" : String) = "report final.txt"
    ∧ "report final.txt" ∈ s3Keys (handler happyEnv percentEvent 7).2 := by
  have h := handler_uses_decoded_key_everywhere happyEnv percentEvent 7
    percentRecord [] "report final.txt" rfl (by decide)
  have hmem : "report final.txt" ∈ s3Keys (handler happyEnv percentEvent 7).2 := by
    decide
  exact ⟨h.1 _ hmem, hmem⟩

/-- The resolver's trace never contains an upload request. -/
theorem resolveSharedFolder_no_upload (f : String) (t : HttpResult TokenBody)
    (s : Except String (List SharedItem)) :
    ∀ e ∈ (resolveSharedFolder f t s).2, isUpload e = false := by
  unfold resolveSharedFolder getOneDriveAccessToken tokenResult
  cases t
  all_goals repeat' split
  all_goals simp_all [isUpload]

/-- Environment whose configured folder matches nothing in the listing. -/
def noMatchEnv : Env :=
  { happyEnv with sharedFolderName := "Missing" }

/-- C4: resolveSharedFolder returns the remoteItem drive id and item id of
the first entry in listing order whose name equals the requested name and
which is a folder entry; when no entry of the listing matches, it fails
with the not-found message and the invocation issues no upload request. -/
theorem resolveSharedFolder_first_match_or_not_found
    (folderName : String) (tokenResp : HttpResult TokenBody)
    (tok tok1 : Option String) (pre rest : List SharedItem) (it : SharedItem)
    (env : Env) (event : S3Event) (timestamp : Nat) (items : List SharedItem)
    (htok : tokenResult tokenResp = Except.ok tok)
    (hpre : ∀ x ∈ pre, matchesFolder folderName x = false)
    (hit : matchesFolder folderName it = true)
    (htok1 : tokenResult env.tokenResp1 = Except.ok tok1)
    (hsh : env.sharedResp = Except.ok items)
    (hnone : ∀ x ∈ items, matchesFolder env.sharedFolderName x = false) :
    ((resolveSharedFolder folderName tokenResp
        (Except.ok (pre ++ it :: rest))).1 =
      Except.ok { driveId := it.remoteItem.parentReference.driveId,
                  itemId := it.remoteItem.id })
    ∧ ((resolveSharedFolder env.sharedFolderName env.tokenResp1
        env.sharedResp).1 =
      Except.error (notFoundMsg env.sharedFolderName))
    ∧ ∀ e ∈ (handler env event timestamp).2, isUpload e = false := by
  have hfind := list_find_first (matchesFolder folderName) pre rest it hpre hit
  have hfindnone : items.find? (matchesFolder env.sharedFolderName) = none :=
    List.find?_eq_none.mpr (fun x hx => by simp [hnone x hx])
  have h2 : (resolveSharedFolder env.sharedFolderName env.tokenResp1
      env.sharedResp).1 = Except.error (notFoundMsg env.sharedFolderName) := by
    simp [resolveSharedFolder, getOneDriveAccessToken, htok1, hsh, hfindnone]
  refine ⟨?_, h2, ?_⟩
  · simp [resolveSharedFolder, getOneDriveAccessToken, htok, hfind]
  · rw [handler_trace]
    simp only [handlerTry]
    repeat' split
    all_goals intro e he
    all_goals
      first
      | (simp_all [isUpload]; done)
      | (rcases List.mem_append.mp he with hm | hm
         · simp_all [isUpload]
         · exact resolveSharedFolder_no_upload _ _ _ e hm)

/-- C4 witness: first-match resolution, not-found failure, and
no-upload at fully concrete inputs. -/
theorem resolveSharedFolder_first_match_or_not_found_witness :
    ((resolveSharedFolder "Reports"
        (HttpResult.response 200 { access_token := some "T1" })
        (Except.ok ([otherItem] ++ reportsItem :: []))).1 =
      Except.ok { driveId := "d1", itemId := "i1" })
    ∧ ((resolveSharedFolder "Missing" noMatchEnv.tokenResp1
        noMatchEnv.sharedResp).1 = Except.error (notFoundMsg "Missing"))
    ∧ isUpload Effect.tokenFetch = false := by
  have h := resolveSharedFolder_first_match_or_not_found "Reports"
    (HttpResult.response 200 { access_token := some "T1" }) (some "T1")
    (some "T1") [otherItem] [] reportsItem noMatchEnv exampleEvent 7
    [reportsItem] (by decide) (by decide) (by decide) (by decide) rfl
    (by decide)
  refine ⟨?_, h.2.1, h.2.2 Effect.tokenFetch (by decide)⟩
  exact h.1

/-- Environment identical to happyEnv except the downloaded file is empty. -/
def emptyFileEnv : Env :=
  { happyEnv with statSize := Except.ok 0 }

/-- C5: when the downloaded file has size 0, the handler fails with the
empty-file message before any resolver or uploader step: the outcome is
the 500 response and the trace holds only the S3 download — in particular
no shared-items request, no upload and no token fetch happen. -/
theorem handler_empty_file_stops
    (env : Env) (event : S3Event) (timestamp : Nat) (record : S3Record)
    (rest : List S3Record) (fileKey : String)
    (hrec : event.Records = record :: rest)
    (hdec : decodeURIComponent record.s3.object.key = Except.ok fileKey)
    (hdl : env.downloadResult = Except.ok ())
    (hstat : env.statSize = Except.ok 0) :
    (handler env event timestamp).1 =
      { statusCode := 500, body := failureBody "Downloaded file is empty." }
    ∧ (handler env event timestamp).2 =
      [Effect.s3Download record.s3.bucket.name fileKey
        (downloadPathFor timestamp fileKey)]
    ∧ ∀ e ∈ (handler env event timestamp).2,
        isListShared e = false ∧ isUpload e = false ∧ isTokenFetch e = false := by
  simp [handler, handlerTry, hrec, hdec, hdl, hstat, isListShared, isUpload,
        isTokenFetch]

/-- C5 witness: the empty-file stop at a fully concrete environment. -/
theorem handler_empty_file_stops_witness :
    (handler emptyFileEnv exampleEvent 7).1 =
      { statusCode := 500, body := failureBody "Downloaded file is empty." }
    ∧ (handler emptyFileEnv exampleEvent 7).2 =
      [Effect.s3Download "my-s3-bucket" "example.txt" "/tmp/download-7.txt"]
    ∧ (isListShared (Effect.s3Download "my-s3-bucket" "example.txt"
          "/tmp/download-7.txt") = false
       ∧ isUpload (Effect.s3Download "my-s3-bucket" "example.txt"
          "/tmp/download-7.txt") = false
       ∧ isTokenFetch (Effect.s3Download "my-s3-bucket" "example.txt"
          "/tmp/download-7.txt") = false) := by
  have hpath : downloadPathFor 7 "example.txt" = "/tmp/download-7.txt" := by
    decide
  have h := handler_empty_file_stops emptyFileEnv exampleEvent 7 exampleRecord
    [] "example.txt" rfl (by decide) rfl rfl
  refine ⟨h.1, ?_, h.2.2 _ (by decide)⟩
  have h21 := h.2.1
  rw [hpath] at h21
  exact h21

/-- C6 counterexample: a 200 token response whose body lacks the
access_token field is not treated as a failure — getOneDriveAccessToken
returns ok undefined instead of an error. -/
theorem token_missing_field_counterexample :
    (getOneDriveAccessToken
        (HttpResult.response 200 { access_token := none })).1 = Except.ok none
    ∧ exceptIsError (getOneDriveAccessToken
        (HttpResult.response 200 { access_token := none })).1 = false :=
  ⟨rfl, rfl⟩

/-- C6 (amended): getOneDriveAccessToken propagates a transport error
unchanged and fails whenever the status is not 200; but a 200 response is
returned as its access_token field without any presence check — when the
field is absent the function returns undefined without failing. -/
theorem getOneDriveAccessToken_spec (m : String) (s : Nat) (b : TokenBody)
    (hs : s ≠ 200) :
    (getOneDriveAccessToken (HttpResult.transportError m)).1 = Except.error m
    ∧ (getOneDriveAccessToken (HttpResult.response s b)).1 =
        Except.error "Failed to fetch OneDrive access token."
    ∧ (getOneDriveAccessToken (HttpResult.response 200 b)).1 =
        Except.ok b.access_token := by
  refine ⟨rfl, ?_, rfl⟩
  simp [getOneDriveAccessToken, tokenResult, hs]

/-- C6 witness: the amended token contract at concrete responses. -/
theorem getOneDriveAccessToken_spec_witness :
    (getOneDriveAccessToken (HttpResult.transportError "socket hang up")).1 =
      Except.error "socket hang up"
    ∧ (getOneDriveAccessToken
        (HttpResult.response 401 { access_token := none })).1 =
      Except.error "Failed to fetch OneDrive access token."
    ∧ (getOneDriveAccessToken
        (HttpResult.response 200 { access_token := none })).1 =
      Except.ok none :=
  getOneDriveAccessToken_spec "socket hang up" 401 { access_token := none }
    (by decide)

/-- Once the promise has settled, later listener firings cannot change the
settlement. -/
theorem downloadSettle_append (evts more : List StreamEvent) (s : Settlement)
    (h : downloadSettle evts = some s) :
    downloadSettle (evts ++ more) = some s := by
  induction evts with
  | nil => simp [downloadSettle] at h
  | cons e rest ih =>
    cases hse : settleStep e with
    | some s2 => simp_all [downloadSettle]
    | none => simp_all [downloadSettle]

/-- A resolution can only be caused by a write-stream finish whose stat
succeeded, and it is the first settling firing. -/
theorem downloadSettle_resolved (evts : List StreamEvent)
    (h : downloadSettle evts = some Settlement.resolved) :
    ∃ n, evts.find? (fun e => (settleStep e).isSome) =
      some (StreamEvent.writeFinish (Except.ok n)) := by
  induction evts with
  | nil => simp [downloadSettle] at h
  | cons e rest ih =>
    cases e with
    | readEnd =>
      simp only [downloadSettle, settleStep] at h
      obtain ⟨n, hn⟩ := ih h
      exact ⟨n, by simpa [List.find?, settleStep] using hn⟩
    | readError m => simp_all [downloadSettle, settleStep]
    | writeError m => simp_all [downloadSettle, settleStep]
    | writeFinish st =>
      cases st with
      | ok n => exact ⟨n, by simp [List.find?, settleStep]⟩
      | error m => simp_all [downloadSettle, settleStep]

/-- C7: the download promise settles exactly once and only correctly: a
read-stream end settles nothing; a resolution can only come from a write
finish whose stat succeeded; an error firing of either stream rejects with
its message when nothing settled earlier; and once settled, later firings
(including a second error) never change the settlement. -/
theorem downloadFileFromS3_settles_once
    (evts more : List StreamEvent) (m1 : String) (s : Settlement) :
    (downloadSettle (StreamEvent.readEnd :: evts) = downloadSettle evts)
    ∧ (downloadSettle evts = some Settlement.resolved →
        ∃ n, evts.find? (fun e => (settleStep e).isSome) =
          some (StreamEvent.writeFinish (Except.ok n)))
    ∧ (downloadSettle (StreamEvent.readError m1 :: evts) =
        some (Settlement.rejected m1))
    ∧ (downloadSettle (StreamEvent.writeError m1 :: evts) =
        some (Settlement.rejected m1))
    ∧ (downloadSettle evts = some s →
        downloadSettle (evts ++ more) = some s) :=
  ⟨by simp [downloadSettle, settleStep],
   downloadSettle_resolved evts,
   by simp [downloadSettle, settleStep],
   by simp [downloadSettle, settleStep],
   downloadSettle_append evts more s⟩

/-- C7 witness: a settled resolution survives a late write-stream error. -/
theorem downloadFileFromS3_settles_once_witness :
    downloadSettle ([StreamEvent.writeFinish (Except.ok 5)] ++
      [StreamEvent.writeError "late"]) = some Settlement.resolved := by
  have h := downloadFileFromS3_settles_once
    [StreamEvent.writeFinish (Except.ok 5)] [StreamEvent.writeError "late"]
    "boom" Settlement.resolved
  exact h.2.2.2.2 (by decide)

/-- If the resolver returned ok, its token fetch succeeded and its trace
is exactly the token fetch followed by the listing request bearing that
fetched token. -/
theorem resolveSharedFolder_ok_inv (f : String) (t : HttpResult TokenBody)
    (sh : Except String (List SharedItem)) (fr : FolderRef)
    (h : (resolveSharedFolder f t sh).1 = Except.ok fr) :
    ∃ tok, tokenResult t = Except.ok tok
      ∧ (resolveSharedFolder f t sh).2 =
        [Effect.tokenFetch, Effect.listShared tok] := by
  cases ht : tokenResult t with
  | error m =>
    exfalso
    simp [resolveSharedFolder, getOneDriveAccessToken, ht] at h
  | ok tok =>
    refine ⟨tok, rfl, ?_⟩
    cases sh with
    | error m => simp [resolveSharedFolder, getOneDriveAccessToken, ht]
    | ok items =>
      rcases hf : items.find? (matchesFolder f) with _ | it <;>
        simp [resolveSharedFolder, getOneDriveAccessToken, ht, hf]

/-- If the uploader returned ok, its token fetch succeeded and its trace
is exactly token fetch, file read, then the upload bearing that token. -/
theorem uploadFileToSharedFolder_ok_inv (d i p fn : String)
    (t : HttpResult TokenBody) (rf : Except String Unit)
    (up : HttpResult String) (data : String)
    (h : (uploadFileToSharedFolder d i p fn t rf up).1 = Except.ok data) :
    ∃ tok, tokenResult t = Except.ok tok
      ∧ (uploadFileToSharedFolder d i p fn t rf up).2 =
        [Effect.tokenFetch, Effect.readLocalFile p,
         Effect.upload tok d i fn] := by
  cases ht : tokenResult t with
  | error m =>
    exfalso
    simp [uploadFileToSharedFolder, getOneDriveAccessToken, ht] at h
  | ok tok =>
    refine ⟨tok, rfl, ?_⟩
    cases rf with
    | error m =>
      exfalso
      simp [uploadFileToSharedFolder, getOneDriveAccessToken, ht] at h
    | ok u =>
      cases up with
      | transportError m =>
        simp [uploadFileToSharedFolder, getOneDriveAccessToken, ht]
      | response st dat =>
        by_cases hst : st = 201 ∨ st = 200 <;>
          simp [uploadFileToSharedFolder, getOneDriveAccessToken, ht, hst]

/-- C8: every invocation that returns statusCode 200 performed exactly two
token fetches — one consumed by the shared-items listing, whose bearer is
the first token response's token, and one consumed by the upload, whose
bearer is the second token response's token — so no token is cached or
reused between the two calls. -/
theorem handler_success_two_token_fetches
    (env : Env) (event : S3Event) (timestamp : Nat)
    (h200 : (handler env event timestamp).1.statusCode = 200) :
    ((handler env event timestamp).2.countP (fun e => isTokenFetch e) = 2)
    ∧ ∃ tok1 tok2,
        tokenResult env.tokenResp1 = Except.ok tok1
        ∧ tokenResult env.tokenResp2 = Except.ok tok2
        ∧ Effect.listShared tok1 ∈ (handler env event timestamp).2
        ∧ ∃ d i f, Effect.upload tok2 d i f ∈ (handler env event timestamp).2 := by
  rcases hres : handlerTry env event timestamp with ⟨res, tr⟩
  have htr : (handler env event timestamp).2 = tr := by
    rw [handler_trace, hres]
  cases res with
  | error m =>
    exfalso
    have h500 : (handler env event timestamp).1.statusCode = 500 := by
      simp [handler, hres]
    rw [h200] at h500
    exact absurd h500 (by decide)
  | ok name =>
    rw [htr]
    simp only [handlerTry] at hres
    repeat' split at hres
    all_goals simp only [Prod.mk.injEq, List.singleton_append,
      List.cons_append, List.nil_append, reduceCtorEq, false_and,
      Except.ok.injEq] at hres
    obtain ⟨tok2, ht2, htr2⟩ :=
      uploadFileToSharedFolder_ok_inv _ _ _ _ _ _ _ _ (by assumption)
    obtain ⟨tok1, ht1, htr1⟩ :=
      resolveSharedFolder_ok_inv _ _ _ _ (by assumption)
    obtain ⟨hname, htreq⟩ := hres
    refine ⟨?_, tok1, tok2, ht1, ht2, ?_, ?_⟩
    · rw [← htreq]
      simp [List.countP_append, htr1, htr2, List.countP_cons, isTokenFetch]
    · rw [← htreq]
      simp [List.mem_append, htr1]
    · rw [← htreq, htr1, htr2]
      simp [List.mem_append, List.mem_cons]

/-- C8 witness: the double token fetch observed on the concrete success
environment. -/
theorem handler_success_two_token_fetches_witness :
    ((handler happyEnv exampleEvent 7).2.countP (fun e => isTokenFetch e) = 2)
    ∧ tokenResult happyEnv.tokenResp1 = Except.ok (some "T1")
    ∧ tokenResult happyEnv.tokenResp2 = Except.ok (some "T2")
    ∧ Effect.listShared (some "T1") ∈ (handler happyEnv exampleEvent 7).2
    ∧ Effect.upload (some "T2") "d1" "i1" "example.txt" ∈
        (handler happyEnv exampleEvent 7).2 := by
  have h := handler_success_two_token_fetches happyEnv exampleEvent 7 (by decide)
  exact ⟨h.1, by decide, by decide, by decide, by decide⟩

/-- C9: the handler depends only on the first record of the event: any
further records change neither the outcome nor the effects. -/
theorem handler_first_record_only (env : Env) (r : S3Record)
    (rest : List S3Record) (timestamp : Nat) :
    handler env { Records := r :: rest } timestamp =
      handler env { Records := [r] } timestamp := rfl

/-- Environment where the upload returns 200 with an empty (falsy) body. -/
def falsyUploadEnv : Env :=
  { happyEnv with uploadResp := HttpResult.response 200 "" }

/-- C10: a 200/201 upload response with an empty body is returned as is by
uploadFileToSharedFolder, and the handler then takes the failure path:
statusCode 500 with the upload-failure error message, although the upload
succeeded at the HTTP level. -/
theorem handler_falsy_upload_body
    (env : Env) (event : S3Event) (timestamp : Nat) (record : S3Record)
    (rest : List S3Record) (fileKey : String) (items : List SharedItem)
    (it : SharedItem) (tok1 tok2 : Option String) (n s : Nat)
    (d i p : String)
    (hrec : event.Records = record :: rest)
    (hdec : decodeURIComponent record.s3.object.key = Except.ok fileKey)
    (hdl : env.downloadResult = Except.ok ())
    (hstat : env.statSize = Except.ok n) (hn : n ≠ 0)
    (ht1 : tokenResult env.tokenResp1 = Except.ok tok1)
    (hsh : env.sharedResp = Except.ok items)
    (hfind : items.find? (matchesFolder env.sharedFolderName) = some it)
    (ht2 : tokenResult env.tokenResp2 = Except.ok tok2)
    (hrf : env.readFileResult = Except.ok ())
    (hup : env.uploadResp = HttpResult.response s "")
    (hs : s = 201 ∨ s = 200) :
    ((uploadFileToSharedFolder d i p fileKey env.tokenResp2
        env.readFileResult env.uploadResp).1 = Except.ok "")
    ∧ (handler env event timestamp).1 =
      { statusCode := 500,
        body := failureBody
          "Failed to upload file to shared folder on OneDrive." } := by
  rcases hs with rfl | rfl <;>
    constructor <;>
    simp [handler, handlerTry, uploadFileToSharedFolder, resolveSharedFolder,
          getOneDriveAccessToken, hrec, hdec, hdl, hstat, hn, ht1, hsh, hfind,
          ht2, hrf, hup]

/-- C10 witness: the falsy-body upload outcome at a fully concrete
environment. -/
theorem handler_falsy_upload_body_witness :
    ((uploadFileToSharedFolder "d1" "i1" "/tmp/download-7.txt" "example.txt"
        falsyUploadEnv.tokenResp2 falsyUploadEnv.readFileResult
        falsyUploadEnv.uploadResp).1 = Except.ok "")
    ∧ (handler falsyUploadEnv exampleEvent 7).1 =
      { statusCode := 500,
        body := failureBody
          "Failed to upload file to shared folder on OneDrive." } :=
  handler_falsy_upload_body falsyUploadEnv exampleEvent 7 exampleRecord []
    "example.txt" [reportsItem] reportsItem (some "T1") (some "T2") 5 200
    "d1" "i1" "/tmp/download-7.txt" rfl (by decide) rfl rfl (by decide)
    (by decide) rfl (by decide) (by decide) rfl rfl (Or.inr rfl)

end S3ToOneDrive
